import Mathlib

/-!
Shallow embedding of `homework.py` (a Telegram homework-status poller) and
`exception.py`. Pure helpers of the source become Lean functions; the mutable
`message_log` side channel and the `timestamp` watermark are threaded
explicitly through the poll-loop step; every Python `raise` becomes an
`Except.error` carrying the exception class together with the text (if any)
written to `message_log.error` at that raise site.
-/

/-- Python/JSON values as decoded by `response.json()`: `None`, booleans,
integers, strings, lists and string-keyed mappings (JSON object keys are
always strings; floats do not occur in the payloads modelled here). -/
inductive PyVal where
  | none : PyVal
  | bool : Bool → PyVal
  | int : Int → PyVal
  | str : String → PyVal
  | list : List PyVal → PyVal
  | dict : List (String × PyVal) → PyVal

/-- Association-list lookup, the embedding of `d[k]` / `k in d` / `d.get(k)`
on a Python dict. Keys of a decoded JSON object are distinct, so
first-match lookup agrees with Python dict lookup. -/
def assoc {α : Type} : List (String × α) → String → Option α
  | [], _ => Option.none
  | (k', v) :: rest, k => if k' = k then some v else assoc rest k

mutual

/-- Python `repr` of a value, as used when a value is interpolated inside a
container rendering (string escaping of exotic characters is not modelled;
the strings that actually occur here contain none). -/
def pyRepr : PyVal → String
  | PyVal.none => "None"
  | PyVal.bool b => if b then "True" else "False"
  | PyVal.int i => toString i
  | PyVal.str s => "\x27" ++ s ++ "\x27"
  | PyVal.list l => "[" ++ pyReprItems l ++ "]"
  | PyVal.dict kvs => "\x7b" ++ pyReprPairs kvs ++ "\x7d"

/-- Comma-separated `repr` of list items. -/
def pyReprItems : List PyVal → String
  | [] => ""
  | [v] => pyRepr v
  | v :: rest => pyRepr v ++ ", " ++ pyReprItems rest

/-- Comma-separated `repr` of dict entries. -/
def pyReprPairs : List (String × PyVal) → String
  | [] => ""
  | [(k, v)] => "\x27" ++ k ++ "\x27: " ++ pyRepr v
  | (k, v) :: rest => "\x27" ++ k ++ "\x27: " ++ pyRepr v ++ ", " ++ pyReprPairs rest

end

/-- Python `str` of a value, as used by f-string interpolation. -/
def pyStr : PyVal → String
  | PyVal.none => "None"
  | PyVal.bool b => if b then "True" else "False"
  | PyVal.int i => toString i
  | PyVal.str s => s
  | PyVal.list l => "[" ++ pyReprItems l ++ "]"
  | PyVal.dict kvs => "\x7b" ++ pyReprPairs kvs ++ "\x7d"

/-- Python exception classes that can be raised by the source: the builtin
classes it raises explicitly or implicitly, and the custom classes of
`exception.py` (`EmergencyStop`, `ErrorGetApi`, `StatusNotOK`). -/
inductive PyExc where
  | typeError
  | keyError
  | valueError
  | attributeError
  | emergencyStop
  | errorGetApi
  | statusNotOK
  deriving DecidableEq

/-- A raised Python exception: its class, plus the text assigned to the
`message_log.error` side channel at the raise site (`Option.none` when the
raise site does not write to `message_log`, e.g. an implicit
`AttributeError`). -/
abbrev PyErr := PyExc × Option String

/-- Exception class of a failed computation, `Option.none` on success. -/
def excKind {α : Type} : Except PyErr α → Option PyExc
  | Except.error (e, _) => some e
  | Except.ok _ => Option.none

/-- Whether a computation returned normally (no exception raised). -/
def except_ok {α : Type} : Except PyErr α → Bool
  | Except.ok _ => true
  | Except.error _ => false

/-- `isinstance(v, dict)`. -/
def is_mapping : PyVal → Bool
  | PyVal.dict _ => true
  | _ => false

/-- `isinstance(v, list)`. -/
def is_list : PyVal → Bool
  | PyVal.list _ => true
  | _ => false

/-- `RETRY_PERIOD = 600`. -/
def RETRY_PERIOD : Nat := 600

/-- `ENDPOINT` constant of the source. -/
def ENDPOINT : String := "https://practicum.yandex.ru/api/user_api/homework_statuses/"

/-- `HOMEWORK_VERDICTS`: the closed map from known status codes to their
fixed human-readable verdict strings. -/
def HOMEWORK_VERDICTS : List (String × String) :=
  [("approved", "Работа проверена: ревьюеру всё понравилось. Ура!"),
   ("reviewing", "Работа взята на проверку ревьюером."),
   ("rejected", "Работа проверена: у ревьюера есть замечания.")]

/-- Modelled from the spec: module `core` (absent from the source tree)
provides `MessageError`, the mutable error-message side channel
(`message_log.error`) used to pass diagnostic text out of nested calls; its
initial contents before any write are irrelevant to every claim and are
taken to be the empty string. -/
def initial_message_log : String := ""

/-- The three environment secrets as `os.getenv` returns them:
`Option.none` when unset, otherwise the (possibly empty) string. -/
structure Config where
  practicum_token : Option String
  telegram_token : Option String
  telegram_chat_id : Option String

/-- Python truthiness of an `os.getenv` result: `None` and the empty string
are falsy, every other string truthy. -/
def truthy : Option String → Bool
  | Option.none => false
  | some s => !s.isEmpty

/-- `check_tokens()`: raises `EmergencyStop` when
`not all((TELEGRAM_TOKEN, PRACTICUM_TOKEN, TELEGRAM_CHAT_ID))`, otherwise
returns normally. (The `logger.critical` call on the failure path is pure
logging and is not tracked.) -/
def check_tokens (cfg : Config) : Except PyErr Unit :=
  if truthy cfg.telegram_token && truthy cfg.practicum_token && truthy cfg.telegram_chat_id
  then Except.ok ()
  else Except.error (PyExc.emergencyStop, Option.none)

/-- `send_message(bot, message)`: attempts the transport call
`bot.send_message(...)` — whose outcome is the `transport` argument, a
success or a `telegram.TelegramError` with the given text, the only failure
the transport raises — and catches the error internally, logging it. The
result records whether the message was delivered and the log line emitted;
the `Except` codomain makes "never raises" a provable property rather than
a typing accident. -/
def send_message (message : String) (transport : Except String Unit) :
    Except PyErr (Bool × String) :=
  match transport with
  | Except.ok _ => Except.ok (true, "Отправка сообщения в телеграмм")
  | Except.error e =>
      Except.ok (false, "Ошибка при отправке сообщения: " ++ e ++ "!")

/-- Environment outcome of one `requests.get(ENDPOINT, ...)` call:
either the call itself raised a `requests.RequestException` with the given
text, or it completed with a status code, a raw body (`response.content`,
rendered as text) and the decoded JSON body (`Option.none` when the body is
not valid JSON, i.e. `response.json()` raises `JSONDecodeError`). -/
inductive HttpOutcome where
  | exc (errText : String)
  | resp (status : Nat) (content : String) (body : Option PyVal)

/-- Text of the `requests.HTTPError` that `raise_for_status()` raises for a
4xx/5xx code; its exact wording is produced inside the requests library and
is modelled abstractly by the status code. -/
def http_error_str (status : Nat) : String := toString status

/-- Rendering of the request payload `{'from_date': timestamp}` as Python
`str` would print it inside the diagnostic message. -/
def payload_str (timestamp : PyVal) : String :=
  "\x7b\x27from_date\x27: " ++ pyRepr timestamp ++ "\x7d"

/-- `get_api_answer(timestamp)`: performs one GET (outcome supplied by
`net`), then `raise_for_status()` (raises `requests.HTTPError`, a
`RequestException`, for 4xx/5xx — caught and re-raised as `ErrorGetApi`),
then the explicit `!= HTTPStatus.OK` check raising `StatusNotOK`, then
JSON decoding raising `ValueError`; on success returns the decoded body. -/
def get_api_answer (timestamp : PyVal) (net : HttpOutcome) : Except PyErr PyVal :=
  match net with
  | HttpOutcome.exc e =>
      Except.error (PyExc.errorGetApi,
        some ("Ошибка при запросе к endpoint:" ++ ENDPOINT ++ " " ++ e))
  | HttpOutcome.resp status content body =>
      if 400 ≤ status then
        Except.error (PyExc.errorGetApi,
          some ("Ошибка при запросе к endpoint:" ++ ENDPOINT ++ " " ++ http_error_str status))
      else if status ≠ 200 then
        Except.error (PyExc.statusNotOK,
          some ("Параметры запроса:" ++ "endpoint: " ++ ENDPOINT ++ "params: "
            ++ payload_str timestamp ++ "статус-код:" ++ toString status
            ++ "контент ответа:" ++ content))
      else
        match body with
        | Option.none =>
            Except.error (PyExc.valueError, some "Ошибка конвертации данных из json")
        | some v => Except.ok v

/-- `response.get(key)`: defined on dicts (missing key yields `None`);
on any other value the attribute access raises `AttributeError`, which
writes nothing to `message_log`. -/
def pyGet (response : PyVal) (key : String) : Except PyErr PyVal :=
  match response with
  | PyVal.dict kvs => Except.ok ((assoc kvs key).getD PyVal.none)
  | _ => Except.error (PyExc.attributeError, Option.none)

/-- `check_response(response)`: `TypeError` when the response is not a
dict, `KeyError` when the key `homeworks` is absent, `TypeError` when the
value under it is not a list; otherwise returns that list unchanged. -/
def check_response (response : PyVal) : Except PyErr (List PyVal) :=
  match response with
  | PyVal.dict kvs =>
      match assoc kvs "homeworks" with
      | some hw =>
          match hw with
          | PyVal.list l => Except.ok l
          | _ => Except.error (PyExc.typeError,
              some "Данные по ключу \"homeworks\" не являются типом \"list\"")
      | Option.none => Except.error (PyExc.keyError,
          some "Ключ \"homeworks\" отсутствует в ответе")
  | _ => Except.error (PyExc.typeError,
      some "Ответ сервера не является типом \"dict\"")

/-- The fixed notification template of `parse_status`:
`f'Изменился статус проверки работы "{homework_name}". {verdict}'`. -/
def status_message (homework_name : PyVal) (verdict : String) : String :=
  "Изменился статус проверки работы \"" ++ pyStr homework_name ++ "\". " ++ verdict

/-- `HOMEWORK_VERDICTS[status]` wrapped in `try/except KeyError`: a known
string status yields the formatted message; an unknown string or any other
hashable value raises `KeyError` (the diagnostic text interpolates
`str(KeyError(key))`, which is `repr(key)`); an unhashable value (list or
dict) raises `TypeError`, writing nothing to `message_log`. -/
def parse_verdict (homework_name status : PyVal) : Except PyErr String :=
  match status with
  | PyVal.str s =>
      match assoc HOMEWORK_VERDICTS s with
      | some verdict => Except.ok (status_message homework_name verdict)
      | Option.none => Except.error (PyExc.keyError,
          some ("Неизвестный статус домашней работы " ++ pyRepr status))
  | PyVal.list _ => Except.error (PyExc.typeError, Option.none)
  | PyVal.dict _ => Except.error (PyExc.typeError, Option.none)
  | _ => Except.error (PyExc.keyError,
      some ("Неизвестный статус домашней работы " ++ pyRepr status))

/-- `parse_status(homework)`: checks `'homework_name' in homework` and
`'status' in homework` (raising `KeyError` with a diagnostic when absent),
then formats the verdict via `HOMEWORK_VERDICTS[status]`. On a non-dict
record, Python's `in` is membership (lists), substring search (strings), or
a `TypeError` (non-containers); a list or string that does contain the
probe still fails at the subsequent string subscript with `TypeError`. -/
def parse_status (homework : PyVal) : Except PyErr String :=
  match homework with
  | PyVal.dict kvs =>
      match assoc kvs "homework_name" with
      | Option.none => Except.error (PyExc.keyError,
          some "Отсутсвует ключ \"homework_name\"")
      | some homework_name =>
          match assoc kvs "status" with
          | Option.none => Except.error (PyExc.keyError,
              some "Отсутсвует ключ \"status\"")
          | some status => parse_verdict homework_name status
  | PyVal.list l =>
      if l.any (fun v => match v with | PyVal.str s => s = "homework_name" | _ => false)
      then Except.error (PyExc.typeError, Option.none)
      else Except.error (PyExc.keyError, some "Отсутсвует ключ \"homework_name\"")
  | PyVal.str s =>
      if 2 ≤ (s.splitOn "homework_name").length
      then Except.error (PyExc.typeError, Option.none)
      else Except.error (PyExc.keyError, some "Отсутсвует ключ \"homework_name\"")
  | _ => Except.error (PyExc.typeError, Option.none)

/-- Observable outcome of the `try/except` portion of one loop iteration:
the `timestamp` variable after the iteration, the `message_log` contents,
the messages passed to `send_message` during the iteration, and (when the
`except` handler ran) the `message_log` component of its `logger.error`
line. -/
structure TryResult where
  timestamp : PyVal
  message_log : String
  sent : List String
  errorLog : Option String

/-- The `except Exception` handler of the loop body: updates `message_log`
if the raise site wrote to it, logs the failure, and passes the failure
summary `f'Сбой в работе программы: {message_log.error}'` to
`send_message` (best-effort: by `send_message` totality the call cannot
alter control flow). -/
def handle (ts : PyVal) (ml : String) (e : PyErr) : TryResult :=
  let ml' := match e.2 with
    | some m => m
    | Option.none => ml
  { timestamp := ts
    message_log := ml'
    sent := ["Сбой в работе программы: " ++ ml']
    errorLog := some ml' }

/-- Tail of the `try` body for a non-empty work-items list:
`message = parse_status(homeworks[0]); send_message(bot, message)`, with a
raise routed to the handler. `ts'` is the already-assigned new watermark,
which the handler therefore keeps. -/
def cycle_notify (ts' : PyVal) (ml : String) (hw : PyVal) : TryResult :=
  match parse_status hw with
  | Except.error e => handle ts' ml e
  | Except.ok message =>
      { timestamp := ts', message_log := ml, sent := [message],
        errorLog := Option.none }

/-- Tail of the `try` body after a successful `check_response`:
`if not homeworks:` nothing is sent (only a debug log), else the first
record is interpreted and notified. -/
def cycle_validated (ts' : PyVal) (ml : String) (homeworks : List PyVal) : TryResult :=
  match homeworks with
  | [] => { timestamp := ts', message_log := ml, sent := [], errorLog := Option.none }
  | hw :: _ => cycle_notify ts' ml hw

/-- Tail of the `try` body after a successful fetch:
`timestamp = response.get('current_date')` (the assignment does not happen
if the right-hand side raises, so the handler keeps the old watermark
there), then `homeworks = check_response(response)`. -/
def cycle_decoded (timestamp : PyVal) (ml : String) (response : PyVal) : TryResult :=
  match pyGet response "current_date" with
  | Except.error e => handle timestamp ml e
  | Except.ok ts' =>
      match check_response response with
      | Except.error e => handle ts' ml e
      | Except.ok homeworks => cycle_validated ts' ml homeworks

/-- The `try` body of one loop iteration, with every raise routed to the
`except Exception` handler `handle`: fetch via `get_api_answer`, then the
decoded-response stages. -/
def cycle_try (timestamp : PyVal) (ml : String) (net : HttpOutcome) : TryResult :=
  match get_api_answer timestamp net with
  | Except.error e => handle timestamp ml e
  | Except.ok response => cycle_decoded timestamp ml response

/-- Observable outcome of one full `while True` iteration: the `from_date`
parameter of the request it issued, the fields of `TryResult`, and the
duration of the unconditional `finally: time.sleep(RETRY_PERIOD)`. -/
structure CycleResult where
  request_from_date : PyVal
  timestamp : PyVal
  message_log : String
  sent : List String
  errorLog : Option String
  slept : Nat

/-- One iteration of the `while True` loop of `main`: the `try` body with
its handler, followed by the unconditional `finally` sleep. Total — no
exception escapes the iteration. -/
def loop_cycle (timestamp : PyVal) (ml : String) (net : HttpOutcome) : CycleResult :=
  let r := cycle_try timestamp ml net
  { request_from_date := timestamp
    timestamp := r.timestamp
    message_log := r.message_log
    sent := r.sent
    errorLog := r.errorLog
    slept := RETRY_PERIOD }

/-- The loop run against a finite prefix of environment outcomes, threading
the `timestamp` watermark and the `message_log` side channel from each
iteration into the next. -/
def run_cycles : PyVal → String → List HttpOutcome → List CycleResult
  | _, _, [] => []
  | ts, ml, net :: rest =>
      let r := loop_cycle ts ml net
      r :: run_cycles r.timestamp r.message_log rest

/-- Startup of `main` before the loop: `check_tokens()` (raising
`EmergencyStop` on missing secrets), then `telegram.Bot(...)` whose outcome
is the `botInit` argument — a `telegram.TelegramError` there is re-raised
as `EmergencyStop`. -/
def main_startup (cfg : Config) (botInit : Except String Unit) : Except PyErr Unit :=
  match check_tokens cfg with
  | Except.error e => Except.error e
  | Except.ok _ =>
      match botInit with
      | Except.error _ => Except.error (PyExc.emergencyStop, Option.none)
      | Except.ok _ => Except.ok ()

/-- `main` run against a finite prefix of environment outcomes: if startup
raises, no loop iteration — hence no API request — ever happens; otherwise
the loop starts from `timestamp = int(time.time())` (the `t0` argument)
and the initial `message_log`. -/
def main_run (cfg : Config) (botInit : Except String Unit) (t0 : Int)
    (nets : List HttpOutcome) : List CycleResult :=
  match main_startup cfg botInit with
  | Except.error _ => []
  | Except.ok _ => run_cycles (PyVal.int t0) initial_message_log nets

/-- Modelled from the spec (refinement target, not source): the message
template the spec states literally, `Changed review status of work
"{name}". {verdict}`. -/
def spec_message (name verdict : String) : String :=
  "Changed review status of work \"" ++ name ++ "\". " ++ verdict



lemma handle_timestamp (ts : PyVal) (ml : String) (e : PyErr) :
    (handle ts ml e).timestamp = ts := rfl

lemma handle_sent (ts : PyVal) (ml : String) (e : PyErr) :
    (handle ts ml e).sent = ["Сбой в работе программы: " ++ (handle ts ml e).message_log] := rfl

lemma handle_errorLog (ts : PyVal) (ml : String) (e : PyErr) :
    (handle ts ml e).errorLog = some (handle ts ml e).message_log := rfl

lemma get_api_answer_ok (ts : PyVal) (c : String) (v : PyVal) :
    get_api_answer ts (HttpOutcome.resp 200 c (some v)) = Except.ok v := rfl

lemma cycle_try_decoded (ts : PyVal) (ml c : String) (v : PyVal) :
    cycle_try ts ml (HttpOutcome.resp 200 c (some v)) = cycle_decoded ts ml v := rfl

lemma cycle_decoded_dict_err (ts : PyVal) (ml : String) (kvs : List (String × PyVal))
    (e : PyErr) (h : check_response (PyVal.dict kvs) = Except.error e) :
    cycle_decoded ts ml (PyVal.dict kvs)
      = handle ((assoc kvs "current_date").getD PyVal.none) ml e := by
  unfold cycle_decoded
  rw [h]
  rfl

lemma cycle_decoded_dict_ok (ts : PyVal) (ml : String) (kvs : List (String × PyVal))
    (l : List PyVal) (h : check_response (PyVal.dict kvs) = Except.ok l) :
    cycle_decoded ts ml (PyVal.dict kvs)
      = cycle_validated ((assoc kvs "current_date").getD PyVal.none) ml l := by
  unfold cycle_decoded
  rw [h]
  rfl

lemma cycle_validated_cons (ts' : PyVal) (ml : String) (hw : PyVal) (tl : List PyVal) :
    cycle_validated ts' ml (hw :: tl) = cycle_notify ts' ml hw := rfl

lemma cycle_notify_ok (ts' : PyVal) (ml : String) (hw : PyVal) (m : String)
    (h : parse_status hw = Except.ok m) :
    cycle_notify ts' ml hw
      = { timestamp := ts', message_log := ml, sent := [m], errorLog := Option.none } := by
  unfold cycle_notify
  rw [h]

lemma cycle_notify_err (ts' : PyVal) (ml : String) (hw : PyVal) (e : PyErr)
    (h : parse_status hw = Except.error e) :
    cycle_notify ts' ml hw = handle ts' ml e := by
  unfold cycle_notify
  rw [h]

lemma cycle_validated_timestamp (ts' : PyVal) (ml : String) (homeworks : List PyVal) :
    (cycle_validated ts' ml homeworks).timestamp = ts' := by
  cases homeworks with
  | nil => rfl
  | cons hw tl =>
      rw [cycle_validated_cons]
      cases hps : parse_status hw with
      | error e => rw [cycle_notify_err ts' ml hw e hps, handle_timestamp]
      | ok m => rw [cycle_notify_ok ts' ml hw m hps]

lemma loop_cycle_request (ts : PyVal) (ml : String) (net : HttpOutcome) :
    (loop_cycle ts ml net).request_from_date = ts := rfl

lemma loop_cycle_dict_timestamp (ts : PyVal) (ml c : String) (kvs : List (String × PyVal)) :
    (loop_cycle ts ml (HttpOutcome.resp 200 c (some (PyVal.dict kvs)))).timestamp
      = (assoc kvs "current_date").getD PyVal.none := by
  show (cycle_try ts ml _).timestamp = _
  rw [cycle_try_decoded]
  cases hcr : check_response (PyVal.dict kvs) with
  | error e => rw [cycle_decoded_dict_err ts ml kvs e hcr, handle_timestamp]
  | ok l => rw [cycle_decoded_dict_ok ts ml kvs l hcr, cycle_validated_timestamp]

lemma check_response_missing (kvs : List (String × PyVal))
    (h : assoc kvs "homeworks" = Option.none) :
    check_response (PyVal.dict kvs)
      = Except.error (PyExc.keyError, some "Ключ \"homeworks\" отсутствует в ответе") := by
  simp [check_response, h]

lemma check_response_list (kvs : List (String × PyVal)) (l : List PyVal)
    (h : assoc kvs "homeworks" = some (PyVal.list l)) :
    check_response (PyVal.dict kvs) = Except.ok l := by
  simp [check_response, h]

lemma check_response_nonlist (kvs : List (String × PyVal)) (v : PyVal)
    (h : assoc kvs "homeworks" = some v) (hv : is_list v = false) :
    check_response (PyVal.dict kvs)
      = Except.error (PyExc.typeError,
          some "Данные по ключу \"homeworks\" не являются типом \"list\"") := by
  simp only [check_response]
  rw [h]
  cases v <;> simp [is_list] at hv ⊢

lemma check_response_nondict (r : PyVal) (h : is_mapping r = false) :
    check_response r
      = Except.error (PyExc.typeError, some "Ответ сервера не является типом \"dict\"") := by
  cases r <;> first | rfl | simp [is_mapping] at h

lemma parse_status_ok (kvs : List (String × PyVal)) (name : PyVal) (s v : String)
    (hname : assoc kvs "homework_name" = some name)
    (hst : assoc kvs "status" = some (PyVal.str s))
    (hv : assoc HOMEWORK_VERDICTS s = some v) :
    parse_status (PyVal.dict kvs) = Except.ok (status_message name v) := by
  simp [parse_status, hname, hst, parse_verdict, hv]

lemma parse_status_no_name (kvs : List (String × PyVal))
    (hname : assoc kvs "homework_name" = Option.none) :
    parse_status (PyVal.dict kvs)
      = Except.error (PyExc.keyError, some "Отсутсвует ключ \"homework_name\"") := by
  simp [parse_status, hname]

lemma parse_status_no_status (kvs : List (String × PyVal)) (name : PyVal)
    (hname : assoc kvs "homework_name" = some name)
    (hst : assoc kvs "status" = Option.none) :
    parse_status (PyVal.dict kvs)
      = Except.error (PyExc.keyError, some "Отсутсвует ключ \"status\"") := by
  simp [parse_status, hname, hst]

lemma parse_status_unknown (kvs : List (String × PyVal)) (name : PyVal) (s : String)
    (hname : assoc kvs "homework_name" = some name)
    (hst : assoc kvs "status" = some (PyVal.str s))
    (hv : assoc HOMEWORK_VERDICTS s = Option.none) :
    parse_status (PyVal.dict kvs)
      = Except.error (PyExc.keyError,
          some ("Неизвестный статус домашней работы " ++ pyRepr (PyVal.str s))) := by
  simp [parse_status, hname, hst, parse_verdict, hv]

lemma verdicts_unknown (s : String) (h1 : s ≠ "approved") (h2 : s ≠ "reviewing")
    (h3 : s ≠ "rejected") : assoc HOMEWORK_VERDICTS s = Option.none := by
  simp [HOMEWORK_VERDICTS, assoc, Ne.symm h1, Ne.symm h2, Ne.symm h3]

/-- C1: every exception raised by fetching, validating or interpreting is
caught inside the cycle body — the loop step is total and a run processes
every cycle, so no cycle-level error terminates the process; the cycle
sleeps exactly the configured poll interval (`RETRY_PERIOD = 600` seconds)
on every exit path; on a transport error the loop records the failure
summary in its error log, passes a best-effort operator notification to the
Notifier, leaves the Watermark unchanged, and the next fetch is issued with
that unchanged Watermark. -/
theorem c1_failure_containment :
    (∀ ts ml net, (loop_cycle ts ml net).slept = RETRY_PERIOD) ∧
    RETRY_PERIOD = 600 ∧
    (∀ ts ml nets, (run_cycles ts ml nets).length = nets.length) ∧
    (∀ ts ml e,
      (loop_cycle ts ml (HttpOutcome.exc e)).timestamp = ts ∧
      (loop_cycle ts ml (HttpOutcome.exc e)).sent
        = ["Сбой в работе программы: "
            ++ (loop_cycle ts ml (HttpOutcome.exc e)).message_log] ∧
      (loop_cycle ts ml (HttpOutcome.exc e)).errorLog
        = some (loop_cycle ts ml (HttpOutcome.exc e)).message_log) ∧
    (∀ ts ml e net2,
      (run_cycles ts ml [HttpOutcome.exc e, net2]).map (fun r => r.request_from_date)
        = [ts, ts]) := by
  refine ⟨fun ts ml net => rfl, rfl, ?_, fun ts ml e => ⟨rfl, rfl, rfl⟩,
    fun ts ml e net2 => rfl⟩
  intro ts ml nets
  induction nets generalizing ts ml with
  | nil => rfl
  | cons n rest ih => simp [run_cycles, ih]

/-- C8: `send_message` never raises to its caller — for every message and
every transport outcome it returns normally; a transport failure is caught
internally and turned into a log line only. -/
theorem c8_notifier_never_raises :
    (∀ msg t, except_ok (send_message msg t) = true) ∧
    (∀ msg e, send_message msg (Except.error e)
        = Except.ok (false, "Ошибка при отправке сообщения: " ++ e ++ "!")) ∧
    (∀ msg, send_message msg (Except.ok ())
        = Except.ok (true, "Отправка сообщения в телеграмм")) := by
  refine ⟨fun msg t => ?_, fun msg e => rfl, fun msg => rfl⟩
  cases t with
  | ok u => rfl
  | error e => rfl

/-- C7: in a cycle whose well-formed response carries an empty work-items
list, nothing is passed to the Notifier. -/
theorem c7_empty_list_sends_nothing (ts : PyVal) (ml c : String)
    (kvs : List (String × PyVal))
    (h : assoc kvs "homeworks" = some (PyVal.list [])) :
    (loop_cycle ts ml (HttpOutcome.resp 200 c (some (PyVal.dict kvs)))).sent = [] := by
  show (cycle_try ts ml _).sent = []
  rw [cycle_try_decoded, cycle_decoded_dict_ok ts ml kvs [] (check_response_list kvs [] h)]
  rfl

/-- Witness for C7 at a concrete empty-list response. -/
theorem c7_witness :
    (loop_cycle (PyVal.int 0) "" (HttpOutcome.resp 200 ""
      (some (PyVal.dict [("homeworks", PyVal.list []),
        ("current_date", PyVal.int 7)])))).sent = [] :=
  c7_empty_list_sends_nothing _ _ _ _ rfl

/-- C3: in a cycle whose decoded response carries `current_date = T`, the
Watermark is set to the server-reported `T` regardless of its prior value,
and running the cycle body a second time on such a response leaves it at
`T` — the update is idempotent, with no accumulation or drift. -/
theorem c3_watermark_from_server (ts : PyVal) (ml c : String)
    (kvs : List (String × PyVal)) (T : Int)
    (h : assoc kvs "current_date" = some (PyVal.int T)) :
    (loop_cycle ts ml (HttpOutcome.resp 200 c (some (PyVal.dict kvs)))).timestamp
      = PyVal.int T ∧
    (loop_cycle
        (loop_cycle ts ml (HttpOutcome.resp 200 c (some (PyVal.dict kvs)))).timestamp
        (loop_cycle ts ml (HttpOutcome.resp 200 c (some (PyVal.dict kvs)))).message_log
        (HttpOutcome.resp 200 c (some (PyVal.dict kvs)))).timestamp
      = PyVal.int T := by
  constructor
  · rw [loop_cycle_dict_timestamp, h]
    rfl
  · rw [loop_cycle_dict_timestamp, h]
    rfl

/-- Witness for C3 at the spec's scenario timestamp. -/
theorem c3_witness :
    (loop_cycle (PyVal.int 0) "" (HttpOutcome.resp 200 ""
      (some (PyVal.dict [("homeworks", PyVal.list []),
        ("current_date", PyVal.int 1700000000)])))).timestamp
      = PyVal.int 1700000000 :=
  (c3_watermark_from_server (PyVal.int 0) "" ""
    [("homeworks", PyVal.list []), ("current_date", PyVal.int 1700000000)]
    1700000000 rfl).1

/-- C9: the loop assigns the Watermark from `response.get('current_date')`
before validating the envelope, so in a cycle where the fetch succeeds with
a mapping but `check_response` or `parse_status` fails, the Watermark has
nevertheless already been advanced to the response's `current_date`. -/
theorem c9_watermark_advanced_despite_failure (ts : PyVal) (ml c : String)
    (kvs : List (String × PyVal)) :
    (except_ok (check_response (PyVal.dict kvs)) = false →
      (loop_cycle ts ml (HttpOutcome.resp 200 c (some (PyVal.dict kvs)))).timestamp
        = (assoc kvs "current_date").getD PyVal.none) ∧
    (∀ hw rest, assoc kvs "homeworks" = some (PyVal.list (hw :: rest)) →
      except_ok (parse_status hw) = false →
      (loop_cycle ts ml (HttpOutcome.resp 200 c (some (PyVal.dict kvs)))).timestamp
        = (assoc kvs "current_date").getD PyVal.none) :=
  ⟨fun _ => loop_cycle_dict_timestamp ts ml c kvs,
   fun _ _ _ _ => loop_cycle_dict_timestamp ts ml c kvs⟩

/-- Witness for C9: a response with `current_date` but no work-items key
fails validation, yet the Watermark ends at the response's timestamp. -/
theorem c9_witness :
    except_ok (check_response (PyVal.dict [("current_date", PyVal.int 5)])) = false ∧
    (loop_cycle (PyVal.int 0) "" (HttpOutcome.resp 200 ""
      (some (PyVal.dict [("current_date", PyVal.int 5)])))).timestamp
      = (assoc [("current_date", PyVal.int 5)] "current_date").getD PyVal.none :=
  ⟨rfl, (c9_watermark_advanced_despite_failure (PyVal.int 0) "" "" _).1 rfl⟩

/-- C10: a successfully decoded mapping response lacking `current_date`
makes the loop set the Watermark to `None` rather than keeping or failing,
and the next API request is issued with `from_date = None` — the
integer-timestamp invariant is not maintained by the loop itself. -/
theorem c10_missing_current_date (ts : PyVal) (ml c : String)
    (kvs : List (String × PyVal)) (net2 : HttpOutcome)
    (h : assoc kvs "current_date" = Option.none) :
    (loop_cycle ts ml (HttpOutcome.resp 200 c (some (PyVal.dict kvs)))).timestamp
      = PyVal.none ∧
    (run_cycles ts ml [HttpOutcome.resp 200 c (some (PyVal.dict kvs)), net2]).map
        (fun r => r.request_from_date)
      = [ts, PyVal.none] := by
  have h1 : (loop_cycle ts ml
      (HttpOutcome.resp 200 c (some (PyVal.dict kvs)))).timestamp = PyVal.none := by
    rw [loop_cycle_dict_timestamp, h]
    rfl
  refine ⟨h1, ?_⟩
  simp [run_cycles, loop_cycle_request, h1]

/-- Witness for C10 at a concrete response without `current_date`. -/
theorem c10_witness :
    (loop_cycle (PyVal.int 9) "" (HttpOutcome.resp 200 ""
      (some (PyVal.dict [("homeworks", PyVal.list [])])))).timestamp = PyVal.none ∧
    (run_cycles (PyVal.int 9) "" [HttpOutcome.resp 200 ""
        (some (PyVal.dict [("homeworks", PyVal.list [])])), HttpOutcome.exc "e"]).map
        (fun r => r.request_from_date)
      = [PyVal.int 9, PyVal.none] :=
  c10_missing_current_date _ _ _ _ _ rfl

/-- C2 counterexample: at the spec's own scenario record
(`homework_name = "diplom"`, `status = "approved"`), the message the code
produces is the fixed Russian template of the source, which is not the
literal string `Changed review status of work "{name}". {verdict}` the
claim states. -/
theorem c2_counterexample :
    parse_status (PyVal.dict [("homework_name", PyVal.str "diplom"),
        ("status", PyVal.str "approved")])
      = Except.ok ("Изменился статус проверки работы \"diplom\". Работа проверена: ревьюеру всё понравилось. Ура!") ∧
    "Изменился статус проверки работы \"diplom\". Работа проверена: ревьюеру всё понравилось. Ура!"
      ≠ spec_message "diplom" "Работа проверена: ревьюеру всё понравилось. Ура!" :=
  ⟨rfl, by decide⟩

/-- C2 (amended): for every well-formed response whose work-items list is
non-empty and whose first record has a name and a known status code, the
notification message the cycle passes to the Notifier equals exactly the
source's fixed template
`Изменился статус проверки работы "{name}". {verdict}` for the
corresponding name and verdict pair. -/
theorem c2_message_format (ts : PyVal) (ml c : String)
    (kvs hw : List (String × PyVal)) (rest : List PyVal) (name s v : String)
    (hhw : assoc kvs "homeworks" = some (PyVal.list (PyVal.dict hw :: rest)))
    (hname : assoc hw "homework_name" = some (PyVal.str name))
    (hst : assoc hw "status" = some (PyVal.str s))
    (hv : assoc HOMEWORK_VERDICTS s = some v) :
    (loop_cycle ts ml (HttpOutcome.resp 200 c (some (PyVal.dict kvs)))).sent
      = ["Изменился статус проверки работы \"" ++ name ++ "\". " ++ v] := by
  show (cycle_try ts ml _).sent = _
  rw [cycle_try_decoded,
    cycle_decoded_dict_ok ts ml kvs _ (check_response_list kvs _ hhw),
    cycle_validated_cons,
    cycle_notify_ok _ _ _ _ (parse_status_ok hw (PyVal.str name) s v hname hst hv)]
  rfl

/-- Witness for C2 (amended) at the spec's scenario input. -/
theorem c2_witness :
    (loop_cycle (PyVal.int 0) "" (HttpOutcome.resp 200 ""
      (some (PyVal.dict [("homeworks", PyVal.list [PyVal.dict
          [("homework_name", PyVal.str "diplom"), ("status", PyVal.str "approved")]]),
        ("current_date", PyVal.int 1700000000)])))).sent
      = ["Изменился статус проверки работы \"" ++ "diplom" ++ "\". "
          ++ "Работа проверена: ревьюеру всё понравилось. Ура!"] :=
  c2_message_format (PyVal.int 0) "" ""
    [("homeworks", PyVal.list [PyVal.dict
        [("homework_name", PyVal.str "diplom"), ("status", PyVal.str "approved")]]),
      ("current_date", PyVal.int 1700000000)]
    [("homework_name", PyVal.str "diplom"), ("status", PyVal.str "approved")]
    [] "diplom" "approved" "Работа проверена: ревьюеру всё понравилось. Ура!"
    rfl rfl rfl rfl

/-- C4 counterexample: the non-mapping violation and the non-list violation
raise the same exception kind (`TypeError`), so `check_response` does not
fail with three distinct error kinds, one per structural violation. -/
theorem c4_counterexample :
    excKind (check_response (PyVal.list [])) = some PyExc.typeError ∧
    excKind (check_response (PyVal.dict [("homeworks", PyVal.int 0)]))
      = some PyExc.typeError ∧
    ¬ excKind (check_response (PyVal.list []))
        ≠ excKind (check_response (PyVal.dict [("homeworks", PyVal.int 0)])) :=
  ⟨rfl, rfl, fun hne => hne rfl⟩

/-- C4 (amended): `check_response` fails with `TypeError` when the response
is not a mapping, with `KeyError` when the mapping lacks the work-items
key, and again with `TypeError` — the same exception kind as the
non-mapping case, distinguished only by its diagnostic message — when the
value under the key is not a list; when all checks pass it returns the
list unchanged. -/
theorem c4_check_response_envelope :
    (∀ r, is_mapping r = false →
      check_response r = Except.error (PyExc.typeError,
        some "Ответ сервера не является типом \"dict\"")) ∧
    (∀ kvs, assoc kvs "homeworks" = Option.none →
      check_response (PyVal.dict kvs) = Except.error (PyExc.keyError,
        some "Ключ \"homeworks\" отсутствует в ответе")) ∧
    (∀ kvs v, assoc kvs "homeworks" = some v → is_list v = false →
      check_response (PyVal.dict kvs) = Except.error (PyExc.typeError,
        some "Данные по ключу \"homeworks\" не являются типом \"list\"")) ∧
    (∀ kvs l, assoc kvs "homeworks" = some (PyVal.list l) →
      check_response (PyVal.dict kvs) = Except.ok l) :=
  ⟨check_response_nondict, check_response_missing,
   fun kvs v h hv => check_response_nonlist kvs v h hv,
   fun kvs l h => check_response_list kvs l h⟩

/-- Witness for C4 (amended) at concrete inputs. -/
theorem c4_witness :
    check_response (PyVal.dict [("homeworks", PyVal.list [PyVal.int 1])])
      = Except.ok [PyVal.int 1] ∧
    check_response (PyVal.int 3)
      = Except.error (PyExc.typeError, some "Ответ сервера не является типом \"dict\"") :=
  ⟨c4_check_response_envelope.2.2.2 _ _ rfl, c4_check_response_envelope.1 _ rfl⟩

/-- C5 counterexample: the missing-field failure and the unknown-status
failure raise the same exception kind (`KeyError`), so the unknown-status
error is not a distinct error kind as the claim states. -/
theorem c5_counterexample :
    excKind (parse_status (PyVal.dict [("homework_name", PyVal.str "a")]))
      = some PyExc.keyError ∧
    excKind (parse_status (PyVal.dict [("homework_name", PyVal.str "a"),
        ("status", PyVal.str "resetting")]))
      = some PyExc.keyError ∧
    ¬ excKind (parse_status (PyVal.dict [("homework_name", PyVal.str "a")]))
        ≠ excKind (parse_status (PyVal.dict [("homework_name", PyVal.str "a"),
            ("status", PyVal.str "resetting")])) :=
  ⟨rfl, rfl, fun hne => hne rfl⟩

/-- C5 (amended): `parse_status` maps each status code of the known set
{approved, reviewing, rejected} — and no other string — to its exact fixed
verdict string inside the message template; it fails with `KeyError` when
the record lacks a name or a status field, and again with `KeyError` — the
same exception kind, distinguished only by its diagnostic message — when
the status is a string outside the known set. -/
theorem c5_parse_status_taxonomy :
    assoc HOMEWORK_VERDICTS "approved"
      = some "Работа проверена: ревьюеру всё понравилось. Ура!" ∧
    assoc HOMEWORK_VERDICTS "reviewing" = some "Работа взята на проверку ревьюером." ∧
    assoc HOMEWORK_VERDICTS "rejected"
      = some "Работа проверена: у ревьюера есть замечания." ∧
    (∀ s, s ≠ "approved" → s ≠ "reviewing" → s ≠ "rejected" →
      assoc HOMEWORK_VERDICTS s = Option.none) ∧
    (∀ kvs name s v, assoc kvs "homework_name" = some name →
      assoc kvs "status" = some (PyVal.str s) → assoc HOMEWORK_VERDICTS s = some v →
      parse_status (PyVal.dict kvs) = Except.ok (status_message name v)) ∧
    (∀ kvs, assoc kvs "homework_name" = Option.none →
      parse_status (PyVal.dict kvs) = Except.error (PyExc.keyError,
        some "Отсутсвует ключ \"homework_name\"")) ∧
    (∀ kvs name, assoc kvs "homework_name" = some name →
      assoc kvs "status" = Option.none →
      parse_status (PyVal.dict kvs) = Except.error (PyExc.keyError,
        some "Отсутсвует ключ \"status\"")) ∧
    (∀ kvs name s, assoc kvs "homework_name" = some name →
      assoc kvs "status" = some (PyVal.str s) →
      assoc HOMEWORK_VERDICTS s = Option.none →
      parse_status (PyVal.dict kvs) = Except.error (PyExc.keyError,
        some ("Неизвестный статус домашней работы " ++ pyRepr (PyVal.str s)))) :=
  ⟨rfl, rfl, rfl, verdicts_unknown,
   fun kvs name s v h1 h2 h3 => parse_status_ok kvs name s v h1 h2 h3,
   parse_status_no_name,
   fun kvs name h1 h2 => parse_status_no_status kvs name h1 h2,
   fun kvs name s h1 h2 h3 => parse_status_unknown kvs name s h1 h2 h3⟩

/-- Witness for C5 (amended) at concrete inputs. -/
theorem c5_witness :
    parse_status (PyVal.dict [("homework_name", PyVal.str "hw"),
        ("status", PyVal.str "rejected")])
      = Except.ok (status_message (PyVal.str "hw")
          "Работа проверена: у ревьюера есть замечания.") ∧
    assoc HOMEWORK_VERDICTS "unknown" = Option.none :=
  ⟨c5_parse_status_taxonomy.2.2.2.2.1 _ _ _ _ rfl rfl rfl,
   c5_parse_status_taxonomy.2.2.2.1 "unknown" (by decide) (by decide) (by decide)⟩

/-- C6: the configuration check succeeds (returns normally, the embedding's
rendering of "returns true") precisely when all three required secrets are
non-empty and non-null; and when it fails, `main` never reaches the loop,
so no API request — no network call — is ever issued. -/
theorem c6_config_check (cfg : Config) :
    (except_ok (check_tokens cfg) = true ↔
      (truthy cfg.telegram_token = true ∧ truthy cfg.practicum_token = true ∧
        truthy cfg.telegram_chat_id = true)) ∧
    (∀ botInit t0 nets, except_ok (check_tokens cfg) = false →
      main_run cfg botInit t0 nets = []) := by
  constructor
  · simp only [check_tokens]
    by_cases h1 : truthy cfg.telegram_token <;>
      by_cases h2 : truthy cfg.practicum_token <;>
        by_cases h3 : truthy cfg.telegram_chat_id <;>
          simp [h1, h2, h3, except_ok]
  · intro botInit t0 nets hfail
    unfold main_run main_startup
    cases hck : check_tokens cfg with
    | error e => rfl
    | ok u =>
        rw [hck] at hfail
        simp [except_ok] at hfail

/-- Witness for C6: with all secrets missing no cycle — hence no network
request — happens; with all secrets present the check succeeds. -/
theorem c6_witness :
    main_run ⟨Option.none, Option.none, Option.none⟩ (Except.ok ()) 0
      [HttpOutcome.exc "err"] = [] ∧
    except_ok (check_tokens ⟨some "a", some "b", some "c"⟩) = true :=
  ⟨(c6_config_check ⟨Option.none, Option.none, Option.none⟩).2 _ _ _ rfl,
   (c6_config_check ⟨some "a", some "b", some "c"⟩).1.mpr ⟨rfl, rfl, rfl⟩⟩
